import Mathlib

/-
Verification of the certificate-discovery core of the k8s-certs-manager
repository (src/certs_analyzer/scanner.py), as a shallow embedding.

Strings are Lean String values; Python string primitives (strip, replace,
split, substring containment, startswith, lower, int()) are given
executable definitions below that mirror CPython semantics on the ASCII
inputs this program handles.  Filesystem existence and the external
openssl decode step are oracles (Bool- and Except-valued function
parameters); datetimes are modelled as integer microsecond timestamps and
the timedelta .days operation as floor division by the microseconds in a
day, which is exactly Python's normalization of negative timedeltas.
The helper _parse_date (strptime on openssl date strings) is abstracted
as a parameter parseDate : String -> Option Int, since every claim treats
it only through success or failure of parsing.
-/

namespace CertsManager

/-- Python str whitespace, as used by str.strip(). -/
def isPySpace (c : Char) : Bool :=
  c = ' ' || c = '\t' || c = '\n' || c = '\r' || c = '\x0b' || c = '\x0c'

/-- Characters of a string with leading and trailing whitespace removed. -/
def stripChars (l : List Char) : List Char :=
  ((l.dropWhile isPySpace).reverse.dropWhile isPySpace).reverse

/-- Python str.strip(). -/
def pyStrip (s : String) : String := ⟨stripChars s.data⟩

/-- Does pat occur as a contiguous substring of s (Python: pat in s). -/
def listContainsSub (pat : List Char) : List Char → Bool
  | [] => pat.isEmpty
  | c :: cs => pat.isPrefixOf (c :: cs) || listContainsSub pat cs

/-- Python substring test: pat in s. -/
def pyIn (pat s : String) : Bool := listContainsSub pat.data s.data

/-- Python s.startswith(pat). -/
def pyStartswith (s pat : String) : Bool := pat.data.isPrefixOf s.data

/-- Worker for replaceChars: the fuel argument, at least the length of
the scanned list, makes the recursion structural so that the kernel can
evaluate it; every step consumes one unit of fuel and at least one
character, so the fuel never runs out on the initial call. -/
def replaceFuel (pat rep : List Char) : Nat → List Char → List Char
  | 0, s => s
  | _ + 1, [] => []
  | fuel + 1, c :: cs =>
    if pat ≠ [] ∧ pat.isPrefixOf (c :: cs) then
      rep ++ replaceFuel pat rep fuel ((c :: cs).drop pat.length)
    else
      c :: replaceFuel pat rep fuel cs

/-- Replace every non-overlapping occurrence of pat (scanning left to
right) by rep, as Python str.replace does for nonempty patterns. -/
def replaceChars (pat rep s : List Char) : List Char :=
  replaceFuel pat rep s.length s

/-- Python s.replace(pat, rep). -/
def pyReplace (s pat rep : String) : String :=
  ⟨replaceChars pat.data rep.data s.data⟩

/-- Split a character list on a separator character; mirrors Python
str.split(sep) for a one-character separator. -/
def splitOnChar (sep : Char) : List Char → List (List Char)
  | [] => [[]]
  | c :: cs =>
    let rest := splitOnChar sep cs
    if c = sep then [] :: rest
    else
      match rest with
      | [] => [[c]]
      | g :: gs => (c :: g) :: gs

/-- Python s.split(sep) for a single-character separator. -/
def pySplit (s : String) (sep : Char) : List String :=
  (splitOnChar sep s.data).map (fun l => ⟨l⟩)

/-- Python s.lower() (ASCII inputs). -/
def pyLower (s : String) : String := ⟨s.data.map Char.toLower⟩

/-- Value of a nonempty all-decimal-digit character list, else none. -/
def decDigitsVal (ds : List Char) : Option Nat :=
  if ds.isEmpty then none
  else if ds.all Char.isDigit then
    some (ds.foldl (fun a c => a * 10 + (c.toNat - '0'.toNat)) 0)
  else none

/-- Python int(s): surrounding whitespace allowed, optional sign, then a
nonempty run of decimal digits making up the whole remainder. -/
def pyInt (s : String) : Option Int :=
  let t := stripChars s.data
  match t with
  | [] => none
  | c :: ds =>
    if c = '+' then (decDigitsVal ds).map Int.ofNat
    else if c = '-' then (decDigitsVal ds).map (fun n => -(n : Int))
    else (decDigitsVal t).map Int.ofNat

/- ----------------------------------------------------------------
Directory Classifier: scanner.py _is_kubernetes_cert_directory
---------------------------------------------------------------- -/

/-- Allow-list of Kubernetes certificate directories (scanner.py 394). -/
def k8s_cert_dirs : List String :=
  ["/etc/kubernetes/pki", "/var/lib/minikube/certs", "/etc/kubernetes"]

/-- Deny-list of system trust-store directories (scanner.py 401). -/
def system_cert_dirs : List String :=
  ["/etc/ssl/certs", "/usr/share/ca-certificates", "/etc/ca-certificates",
   "/usr/local/share/ca-certificates"]

/-- Loop "for d in dirs: if dir_str.startswith(d): return" with a final
fall-through. -/
def anyPrefixHit (dir_str : String) : List String → Bool
  | [] => false
  | d :: rest => if pyStartswith dir_str d then true else anyPrefixHit dir_str rest

/-- Directory Classifier, scanner.py _is_kubernetes_cert_directory:
deny-list prefix check first, then allow-list prefix check, then the
pki and kubernetes substring heuristic, then the minikube and cert
substring heuristic, else reject. -/
def _is_kubernetes_cert_directory (directory : String) : Bool :=
  let dir_str := directory
  if anyPrefixHit dir_str system_cert_dirs then false
  else if anyPrefixHit dir_str k8s_cert_dirs then true
  else if pyIn "pki" (pyLower dir_str) || pyIn "kubernetes" (pyLower dir_str) then true
  else if pyIn "minikube" (pyLower dir_str) && pyIn "cert" (pyLower dir_str) then true
  else false

/- ----------------------------------------------------------------
Python dictionaries as insertion-ordered association lists
---------------------------------------------------------------- -/

/-- Python dict assignment d[k] = v: update the first (in a dict, only)
entry holding the key in place when present, else append at the end. -/
def pydict_insert : List (String × String) → String → String → List (String × String)
  | [], k, v => [(k, v)]
  | e :: es, k, v => if e.1 == k then (k, v) :: es else e :: pydict_insert es k v

/-- Python dict merge as used at scanner.py 125,
all_cert_paths = star-unpack of filesystem_certs then discovered_certs:
build a fresh dict from the first mapping, then assign every entry of the
second, so the second mapping's values win on shared keys. -/
def pymerge (fs pod : List (String × String)) : List (String × String) :=
  pod.foldl (fun acc e => pydict_insert acc e.1 e.2)
    (fs.foldl (fun acc e => pydict_insert acc e.1 e.2) [])

/-- Standard kubeadm certificate paths (scanner.py 508), in source order. -/
def standard_paths : List (String × String) :=
  [("apiserver", "/etc/kubernetes/pki/apiserver.crt"),
   ("apiserver-kubelet-client", "/etc/kubernetes/pki/apiserver-kubelet-client.crt"),
   ("apiserver-etcd-client", "/etc/kubernetes/pki/apiserver-etcd-client.crt"),
   ("ca", "/etc/kubernetes/pki/ca.crt"),
   ("front-proxy-ca", "/etc/kubernetes/pki/front-proxy-ca.crt"),
   ("front-proxy-client", "/etc/kubernetes/pki/front-proxy-client.crt"),
   ("etcd-ca", "/etc/kubernetes/pki/etcd/ca.crt"),
   ("etcd-server", "/etc/kubernetes/pki/etcd/server.crt"),
   ("etcd-peer", "/etc/kubernetes/pki/etcd/peer.crt"),
   ("etcd-healthcheck-client", "/etc/kubernetes/pki/etcd/healthcheck-client.crt")]

/-- Fallback table, scanner.py _get_fallback_cert_paths: keep each
standard path whose file exists, in table order. -/
def _get_fallback_cert_paths (ex : String → Bool) : List (String × String) :=
  standard_paths.foldl (fun acc e => if ex e.2 then acc ++ [(e.1, e.2)] else acc) []

/- ----------------------------------------------------------------
POSIX path operations used through pathlib
---------------------------------------------------------------- -/

/-- Nonempty components of a POSIX path string. -/
def pathComponents (p : String) : List String :=
  ((splitOnChar '/' p.data).filter (fun l => l ≠ [])).map (fun l => (⟨l⟩ : String))

/-- Path.is_absolute() for POSIX paths. -/
def isAbsolutePath (p : String) : Bool := pyStartswith p "/"

/-- Path.name: the final path component, or the empty string. -/
def pathName (p : String) : String := ((pathComponents p).getLast?).getD ""

/-- Path.parent for a canonical path string. -/
def pathParent (p : String) : String :=
  let cs := pathComponents p
  if isAbsolutePath p then
    match cs.dropLast with
    | [] => "/"
    | ds => "/" ++ String.intercalate "/" ds
  else
    match cs.dropLast with
    | [] => "."
    | ds => String.intercalate "/" ds

/-- Path join, base / child, for a child carrying no leading slash. -/
def pathJoin (b n : String) : String :=
  if b = "" then n
  else if b.data.getLast? = some '/' then b ++ n
  else b ++ "/" ++ n

/-- Path.is_relative_to: same absoluteness and component-prefix. -/
def isRelativeToPath (p base : String) : Bool :=
  (isAbsolutePath p == isAbsolutePath base)
    && (pathComponents base).isPrefixOf (pathComponents p)

/- ----------------------------------------------------------------
Path Resolver: scanner.py _resolve_cert_path
---------------------------------------------------------------- -/

/-- Candidate base directories (scanner.py 271): the configured base
path, the minikube certs directory, and the standard kubeadm pki path. -/
def cert_potential_bases (cert_base_path : String) : List String :=
  [cert_base_path, "/var/lib/minikube/certs", "/etc/kubernetes/pki"]

/-- One iteration of the per-base loop in the absolute branch of
_resolve_cert_path (scanner.py 286-316): accept the raw path when it is
relative to this base and exists, else try base/filename, then
base/etcd/filename, then (from the subdir loop's empty entry)
base/filename again. -/
def resolveViaBase (ex : String → Bool) (path_str base : String) : Option String :=
  let file_name := pathName path_str
  if isRelativeToPath path_str base && ex path_str then some path_str
  else if ex (pathJoin base file_name) then some (pathJoin base file_name)
  else if ex (pathJoin (pathJoin base "etcd") file_name) then
    some (pathJoin (pathJoin base "etcd") file_name)
  else if ex (pathJoin base file_name) then some (pathJoin base file_name)
  else none

/-- Volume-mount loop of _resolve_cert_path (scanner.py 319-323): when a
mount name occurs in the raw string, rebase the file name under the
mount's host path and accept it when it exists. -/
def resolveViaMounts (ex : String → Bool) (path_str : String)
    (mount_map : List (String × String)) : Option String :=
  mount_map.findSome? (fun vm =>
    if pyIn vm.1 path_str || pyStartswith path_str vm.1 then
      if ex (pathJoin vm.2 (pathName path_str)) then
        some (pathJoin vm.2 (pathName path_str))
      else none
    else none)

/-- Last-resort loop of _resolve_cert_path (scanner.py 332-342): for each
existing candidate base that passes the Directory Classifier, try
base/filename then base/etcd/filename. -/
def resolveLastResort (ex : String → Bool) (cert_base_path path_str : String) :
    Option String :=
  let file_name := pathName path_str
  (cert_potential_bases cert_base_path).findSome? (fun base =>
    if ex base && _is_kubernetes_cert_directory base then
      if ex (pathJoin base file_name) then some (pathJoin base file_name)
      else if ex (pathJoin (pathJoin base "etcd") file_name) then
        some (pathJoin (pathJoin base "etcd") file_name)
      else none
    else none)

/-- Path Resolver, scanner.py _resolve_cert_path.  The early returns of
the source become a left-biased chain: the absolute branch (accept the
raw path as-is when it exists under a classifier-approved parent, else
the per-base loop), then the volume-mount loop, then the
relative-to-base join, then the last-resort search, else none. -/
def _resolve_cert_path (ex : String → Bool) (cert_base_path path_str : String)
    (mount_map : List (String × String)) : Option String :=
  (if isAbsolutePath path_str then
     if ex path_str && _is_kubernetes_cert_directory (pathParent path_str) then
       some path_str
     else (cert_potential_bases cert_base_path).findSome? (resolveViaBase ex path_str)
   else none).orElse (fun _ =>
  (resolveViaMounts ex path_str mount_map).orElse (fun _ =>
  (if !isAbsolutePath path_str && ex (pathJoin cert_base_path path_str) then
     some (pathJoin cert_base_path path_str)
   else none).orElse (fun _ =>
  resolveLastResort ex cert_base_path path_str)))

/- ----------------------------------------------------------------
Certificate Text Parser: scanner.py _parse_openssl_output and _parse_dn
---------------------------------------------------------------- -/

/-- Split at the first occurrence of a separator, Python s.split(sep, 1). -/
def splitFirstOn (sep : Char) : List Char → Option (List Char × List Char)
  | [] => none
  | c :: cs =>
    if c = sep then some ([], cs)
    else (splitFirstOn sep cs).map (fun q => (c :: q.1, q.2))

/-- Distinguished-name parser, scanner.py _parse_dn: split on commas,
then each part on its first equals sign; keys and values are stripped;
later occurrences of a key overwrite earlier ones. -/
def _parse_dn (dn_string : String) : List (String × String) :=
  (pySplit dn_string ',').foldl (fun dn part =>
    let part := pyStrip part
    if pyIn "=" part then
      match splitFirstOn '=' part.data with
      | some q => pydict_insert dn (pyStrip ⟨q.1⟩) (pyStrip ⟨q.2⟩)
      | none => dn
    else dn) []

/-- Mutable state of the line loop in _parse_openssl_output: the record
fields the loop writes, plus current_section. -/
structure ParseState where
  subject : List (String × String)
  issuer : List (String × String)
  not_before : Option Int
  not_after : Option Int
  dns_names : List String
  ip_addresses : List String
  key_algorithm : Option String
  key_size : Option String
  cur_section : Option String
deriving Repr, DecidableEq

def initParseState : ParseState :=
  ⟨[], [], none, none, [], [], none, none, none⟩

/-- One iteration of the line loop of _parse_openssl_output
(scanner.py 596-634): strip the line, run the prefix/substring branch
chain, then the trailing section-reset check.  Note the reset check runs
on the already-stripped line, exactly as in the source. -/
def parseLine (parseDate : String → Option Int) (st : ParseState)
    (rawLine : String) : ParseState :=
  let line := pyStrip rawLine
  let st' :=
    if pyStartswith line "Subject:" then
      { st with subject := _parse_dn (pyStrip (pyReplace line "Subject:" "")) }
    else if pyStartswith line "Issuer:" then
      { st with issuer := _parse_dn (pyStrip (pyReplace line "Issuer:" "")) }
    else if pyStartswith line "Not Before:" then
      { st with not_before := parseDate (pyStrip (pyReplace line "Not Before:" "")) }
    else if pyStartswith line "Not After :" || pyStartswith line "Not After:" then
      { st with not_after :=
          parseDate (pyStrip (pyReplace (pyReplace line "Not After :" "") "Not After:" "")) }
    else if pyIn "X509v3 Subject Alternative Name" line || st.cur_section == some "san" then
      let st1 := { st with cur_section := some "san" }
      let st2 :=
        if pyIn "DNS:" line then
          { st1 with dns_names := st1.dns_names ++
              (((pySplit line ',').filter (fun d => pyIn "DNS:" d)).map
                (fun d => pyStrip (pyReplace d "DNS:" ""))) }
        else st1
      if pyIn "IP Address:" line || pyIn "IP:" line then
        { st2 with ip_addresses := st2.ip_addresses ++
            (((pySplit line ',').filter
                (fun t => pyIn "IP Address:" t || pyIn "IP:" t)).map
              (fun t => pyStrip (pyReplace (pyReplace t "IP Address:" "") "IP:" ""))) }
      else st2
    else if pyIn "Public Key Algorithm:" line then
      { st with key_algorithm := some (pyStrip (pyReplace line "Public Key Algorithm:" "")) }
    else if pyIn "RSA Public-Key:" line || pyIn "Public-Key:" line then
      { st with key_size :=
          (some (pyStrip (pyReplace (pyReplace line "RSA Public-Key:" "") "Public-Key:" ""))) }
    else st
  if line ≠ "" && !(pyStartswith line " ") && pyIn ":" line
      && st'.cur_section == some "san" then
    if !(pyIn "X509v3" line) then { st' with cur_section := none } else st'
  else st'

/-- A parsed certificate record (the cert_info dictionary). -/
structure CertInfo where
  name : String
  path : String
  subject : List (String × String)
  issuer : List (String × String)
  not_before : Option Int
  not_after : Option Int
  dns_names : List String
  ip_addresses : List String
  key_algorithm : Option String
  key_size : Option String
  status : String
  days_until_expiry : Option Int
  issues : List String
deriving Repr, DecidableEq

/-- Required apiserver SAN names (scanner.py 712). -/
def required_dns : List String :=
  ["kubernetes", "kubernetes.default", "kubernetes.default.svc",
   "kubernetes.default.svc.cluster.local"]

def sanMissingMsg (r : String) : String :=
  "Missing required DNS name in SAN: " ++ r

def keySizeMsg (n : Int) : String :=
  "Key size (" ++ toString n ++ " bits) is below recommended 2048 bits"

def issuerMsg (cn : String) : String :=
  "Unexpected issuer: " ++ cn ++ " (expected: kubernetes)"

def expiresMsg (d : Int) : String :=
  "Certificate expires in " ++ toString d ++ " days"

/-- First block of scanner.py _validate_certificate: for an apiserver
certificate that is neither a kubelet-client nor an etcd-client one,
one issue per required SAN DNS name absent from the record, in order. -/
def san_issues (c : CertInfo) : List String :=
  if pyIn "apiserver" c.name && !(pyIn "kubelet-client" c.name)
      && !(pyIn "etcd-client" c.name) then
    (required_dns.filter (fun r => !(c.dns_names.contains r))).map sanMissingMsg
  else []

/-- Second block of _validate_certificate: int() on the key-size string
with the substring bit removed and whitespace stripped; below 2048 is an
issue; a parse failure is swallowed by the bare except clause. -/
def key_size_issues (c : CertInfo) : List String :=
  let key_size := c.key_size.getD ""
  if key_size ≠ "" then
    match pyInt (pyStrip (pyReplace key_size "bit" "")) with
    | some n => if n < 2048 then [keySizeMsg n] else []
    | none => []
  else []

/-- Third block of _validate_certificate: an apiserver certificate whose
issuer CN attribute (empty when absent) is not kubernetes. -/
def issuer_issues (c : CertInfo) : List String :=
  let issuer_cn := (c.issuer.lookup "CN").getD ""
  if pyIn "apiserver" c.name && issuer_cn ≠ "kubernetes" then
    [issuerMsg issuer_cn]
  else []

/-- Validator, scanner.py _validate_certificate: the apiserver SAN rule,
the key-size rule, and the issuer-CN rule, appended in source order. -/
def _validate_certificate (c : CertInfo) : List String :=
  san_issues c ++ key_size_issues c ++ issuer_issues c

/-- Microseconds per day: timedelta.days is floor division by this. -/
def usecPerDay : Int := 86400000000

/-- Parser, scanner.py _parse_openssl_output: run the line loop over the
newline-split text, then derive status, days_until_expiry and the expiry
issue from not_after, then append the validation issues. -/
def _parse_openssl_output (parseDate : String → Option Int) (now : Int)
    (cert_name cert_path openssl_output : String) : CertInfo :=
  let st := (pySplit openssl_output '\n').foldl (parseLine parseDate) initParseState
  let base : CertInfo :=
    { name := cert_name, path := cert_path, subject := st.subject,
      issuer := st.issuer, not_before := st.not_before,
      not_after := st.not_after, dns_names := st.dns_names,
      ip_addresses := st.ip_addresses, key_algorithm := st.key_algorithm,
      key_size := st.key_size, status := "unknown",
      days_until_expiry := none, issues := [] }
  let c :=
    match st.not_after with
    | some na =>
      let d := Int.fdiv (na - now) usecPerDay
      if d < 0 then
        { base with days_until_expiry := some d, status := "expired",
                    issues := ["Certificate has expired"] }
      else if d < 30 then
        { base with days_until_expiry := some d, status := "expiring_soon",
                    issues := [expiresMsg d] }
      else
        { base with days_until_expiry := some d, status := "valid" }
    | none => base
  { c with issues := c.issues ++ _validate_certificate c }

/- ----------------------------------------------------------------
Scan orchestration: scanner.py scan_cluster_certificates and
_scan_certificate
---------------------------------------------------------------- -/

/-- Inputs of one scan: availability of the cluster API client, the
outcome of pod-based discovery (a mapping, or a raised error), the
filesystem-discovered mapping, the filesystem-existence oracle, the
openssl decode oracle, the date parser, and the current time. -/
structure ScanParams where
  core_v1 : Bool
  podDiscovery : Except String (List (String × String))
  filesystem_certs : List (String × String)
  fileExists : String → Bool
  decode : String → Except String String
  parseDate : String → Option Int
  now : Int

structure ScanSummary where
  total_certificates : Nat
  expired : Nat
  expiring_soon : Nat
  valid : Nat
  missing : Nat
deriving Repr, DecidableEq

structure ScanResults where
  cluster_type : String
  certificates : List CertInfo
  summary : ScanSummary

/-- Per-certificate scan, scanner.py _scan_certificate: nothing when the
file does not exist; run the decode tool, returning nothing when it
fails (non-zero exit or any exception), else parse its output. -/
def _scan_certificate (ex : String → Bool) (decode : String → Except String String)
    (parseDate : String → Option Int) (now : Int)
    (cert_name cert_path : String) : Option CertInfo :=
  if !(ex cert_path) then none
  else
    match decode cert_path with
    | Except.error _ => none
    | Except.ok text => some (_parse_openssl_output parseDate now cert_name cert_path text)

def scanCertOf (p : ScanParams) (e : String × String) : Option CertInfo :=
  _scan_certificate p.fileExists p.decode p.parseDate p.now e.1 e.2

/-- Summary update for one produced record (scanner.py 138-146):
increment the total, then the bucket matching the record's status; an
unknown status increments no bucket. -/
def bumpSummary (s : ScanSummary) (status : String) : ScanSummary :=
  let s := { s with total_certificates := s.total_certificates + 1 }
  if status == "expired" then { s with expired := s.expired + 1 }
  else if status == "expiring_soon" then { s with expiring_soon := s.expiring_soon + 1 }
  else if status == "valid" then { s with valid := s.valid + 1 }
  else s

/-- One iteration of the certificate loop (scanner.py 133-148). -/
def scanStep (p : ScanParams) (acc : List CertInfo × ScanSummary)
    (e : String × String) : List CertInfo × ScanSummary :=
  match scanCertOf p e with
  | some ci => (acc.1 ++ [ci], bumpSummary acc.2 ci.status)
  | none => (acc.1, { acc.2 with missing := acc.2.missing + 1 })

/-- The name-path entries the certificate loop iterates over
(scanner.py 109-130): pod discovery when the API client is available
(an error degrading to the empty mapping), merged over filesystem
discovery with pod entries winning, with the whole merge replaced by the
fallback table when empty. -/
def scan_entries (p : ScanParams) : List (String × String) :=
  let discovered_certs :=
    if p.core_v1 then
      match p.podDiscovery with
      | Except.ok d => d
      | Except.error _ => []
    else []
  let all_cert_paths := pymerge p.filesystem_certs discovered_certs
  if all_cert_paths.isEmpty then _get_fallback_cert_paths p.fileExists
  else all_cert_paths

/-- Scan orchestrator, scanner.py scan_cluster_certificates: cluster
type is kubeadm exactly when pod discovery ran and returned a nonempty
mapping; then the certificate loop runs over the discovered entries. -/
def scan_cluster_certificates (p : ScanParams) : ScanResults :=
  let cluster_type :=
    if p.core_v1 then
      match p.podDiscovery with
      | Except.ok d => if !d.isEmpty then "kubeadm" else "unknown"
      | Except.error _ => "unknown"
    else "unknown"
  let folded := (scan_entries p).foldl (scanStep p) ([], ⟨0, 0, 0, 0, 0⟩)
  { cluster_type := cluster_type, certificates := folded.1, summary := folded.2 }

/- ----------------------------------------------------------------
Issue classifiers and the spec-side key-size reading
---------------------------------------------------------------- -/

/-- Does an issue string report expiry (exactly the two expiry messages
the status block can produce). -/
def isExpiryIssue (s : String) : Bool :=
  s == "Certificate has expired" || pyStartswith s "Certificate expires in "

/-- Does an issue string report a weak key size. -/
def isKeySizeIssue (s : String) : Bool := pyStartswith s "Key size ("

/-- Modelled from the spec: the key size "parsed as a leading integer
from the key-size string" (spec section 4.6).  This follows the spec's
words, for comparison with the source's int()-based parse; it is not a
translation of the code. -/
def spec_leading_int (s : String) : Option Nat :=
  let ds := s.data.takeWhile Char.isDigit
  if ds.isEmpty then none
  else some (ds.foldl (fun a c => a * 10 + (c.toNat - '0'.toNat)) 0)

/- ================================================================
Helper lemmas
================================================================ -/

lemma anyPrefixHit_eq_any (d : String) (l : List String) :
    anyPrefixHit d l = l.any (fun p => pyStartswith d p) := by
  induction l with
  | nil => rfl
  | cons x xs ih =>
    simp only [anyPrefixHit, List.any_cons]
    by_cases h : pyStartswith d x = true
    · simp [h]
    · simp only [Bool.not_eq_true] at h
      simp [h, ih]

lemma lookup_pydict_insert (d : List (String × String)) (k v k' : String) :
    (pydict_insert d k v).lookup k' = if k' = k then some v else d.lookup k' := by
  induction d with
  | nil =>
    by_cases h : k' = k
    · simp [pydict_insert, List.lookup, h]
    · simp [pydict_insert, List.lookup, h, beq_eq_false_iff_ne.mpr h]
  | cons e es ih =>
    by_cases he : e.1 = k
    · simp only [pydict_insert, he, beq_self_eq_true, if_true]
      by_cases hk' : k' = k
      · simp [List.lookup, hk']
      · simp [List.lookup, hk', beq_eq_false_iff_ne.mpr hk', he]
    · simp only [pydict_insert, beq_eq_false_iff_ne.mpr he, Bool.false_eq_true,
        if_false]
      by_cases hk'e : k' = e.1
      · have hk'k : ¬ k' = k := by rw [hk'e]; exact he
        simp [List.lookup, hk'e, hk'k, he]
      · simp [List.lookup, beq_eq_false_iff_ne.mpr hk'e, ih]

lemma lookup_eq_none_of_not_mem_keys (l : List (String × String)) (k : String)
    (h : k ∉ l.map Prod.fst) : l.lookup k = none := by
  induction l with
  | nil => rfl
  | cons e es ih =>
    simp only [List.map_cons, List.mem_cons, not_or] at h
    simp [List.lookup, beq_eq_false_iff_ne.mpr h.1, ih h.2]

lemma lookup_foldl_pydict_insert (l m : List (String × String)) (k : String)
    (h : (l.map Prod.fst).Nodup) :
    ((l.foldl (fun acc e => pydict_insert acc e.1 e.2) m).lookup k)
      = (l.lookup k).orElse (fun _ => m.lookup k) := by
  induction l generalizing m with
  | nil => simp [Option.orElse]
  | cons e es ih =>
    simp only [List.map_cons, List.nodup_cons] at h
    simp only [List.foldl_cons]
    rw [ih _ h.2]
    by_cases hk : k = e.1
    · subst hk
      have hnone : es.lookup e.1 = none :=
        lookup_eq_none_of_not_mem_keys es e.1 h.1
      simp [List.lookup, hnone, lookup_pydict_insert, Option.orElse]
    · simp [List.lookup, beq_eq_false_iff_ne.mpr hk, lookup_pydict_insert, hk]

lemma lookup_pymerge (fs pod : List (String × String)) (k : String)
    (hp : (pod.map Prod.fst).Nodup) (hf : (fs.map Prod.fst).Nodup) :
    (pymerge fs pod).lookup k = (pod.lookup k).orElse (fun _ => fs.lookup k) := by
  unfold pymerge
  rw [lookup_foldl_pydict_insert _ _ _ hp, lookup_foldl_pydict_insert _ _ _ hf]
  cases pod.lookup k <;> cases fs.lookup k <;> simp [List.lookup, Option.orElse]

lemma foldl_keep_exists (ex : String → Bool) (l acc : List (String × String)) :
    l.foldl (fun acc e => if ex e.2 then acc ++ [(e.1, e.2)] else acc) acc
      = acc ++ l.filter (fun e => ex e.2) := by
  induction l generalizing acc with
  | nil => simp
  | cons e es ih =>
    simp only [List.foldl_cons, List.filter_cons]
    by_cases h : ex e.2 = true
    · simp [h, ih]
    · simp only [Bool.not_eq_true] at h
      simp [h, ih]

lemma fallback_eq_filter (ex : String → Bool) :
    _get_fallback_cert_paths ex = standard_paths.filter (fun e => ex e.2) := by
  unfold _get_fallback_cert_paths
  rw [foldl_keep_exists]
  rfl

/- ================================================================
Claim theorems
================================================================ -/

/-- C4: the Directory Classifier applies its rules in a fixed order with
the first matching rule winning: deny-list prefix match rejects, then
allow-list prefix match accepts, then a path containing pki or kubernetes
(case-insensitively) is accepted, then a path containing both minikube
and cert is accepted, otherwise rejected; and the five concrete example
paths classify as the specification states. -/
theorem C4_directory_classifier (d : String) :
    (_is_kubernetes_cert_directory d =
      (if system_cert_dirs.any (fun p => pyStartswith d p) then false
       else if k8s_cert_dirs.any (fun p => pyStartswith d p) then true
       else if pyIn "pki" (pyLower d) || pyIn "kubernetes" (pyLower d) then true
       else if pyIn "minikube" (pyLower d) && pyIn "cert" (pyLower d) then true
       else false))
    ∧ _is_kubernetes_cert_directory "/etc/ssl/certs" = false
    ∧ _is_kubernetes_cert_directory "/etc/kubernetes/pki" = true
    ∧ _is_kubernetes_cert_directory "/var/lib/minikube/certs" = true
    ∧ _is_kubernetes_cert_directory "/opt/custom/certs" = false
    ∧ _is_kubernetes_cert_directory "/data/my-pki-store" = true := by
  refine ⟨?_, by decide, by decide, by decide, by decide, by decide⟩
  simp only [_is_kubernetes_cert_directory, anyPrefixHit_eq_any]

/-- C5: a raw path string that is absolute, exists on disk, and whose
parent directory passes the Directory Classifier is returned by the Path
Resolver exactly as given, before any other candidate base, volume-mount
substitution or fallback is consulted. -/
theorem C5_resolver_accepts_absolute_path (ex : String → Bool)
    (cert_base_path p : String) (mm : List (String × String))
    (habs : isAbsolutePath p = true) (hex : ex p = true)
    (hdir : _is_kubernetes_cert_directory (pathParent p) = true) :
    _resolve_cert_path ex cert_base_path p mm = some p := by
  unfold _resolve_cert_path
  simp [habs, hex, hdir, Option.orElse]

/-- Witness for C5 at the path named by the specification. -/
theorem C5_resolver_accepts_absolute_path_witness :
    isAbsolutePath "/etc/kubernetes/pki/apiserver.crt" = true
    ∧ (fun q => q == "/etc/kubernetes/pki/apiserver.crt")
        "/etc/kubernetes/pki/apiserver.crt" = true
    ∧ _is_kubernetes_cert_directory
        (pathParent "/etc/kubernetes/pki/apiserver.crt") = true
    ∧ _resolve_cert_path (fun q => q == "/etc/kubernetes/pki/apiserver.crt")
        "/etc/kubernetes/pki" "/etc/kubernetes/pki/apiserver.crt" []
        = some "/etc/kubernetes/pki/apiserver.crt" :=
  ⟨by decide, by decide, by decide,
    C5_resolver_accepts_absolute_path
      (fun q => q == "/etc/kubernetes/pki/apiserver.crt")
      "/etc/kubernetes/pki" "/etc/kubernetes/pki/apiserver.crt" []
      (by decide) (by decide) (by decide)⟩

/-- C10: the scan's clusterType is kubeadm exactly when the cluster API
client was available and pod-based discovery returned without raising
and with at least one entry; in every other case it is unknown, and in
particular the declared value custom is never produced. -/
theorem C10_cluster_type_kubeadm_or_unknown (p : ScanParams) :
    ((scan_cluster_certificates p).cluster_type = "kubeadm"
      ∨ (scan_cluster_certificates p).cluster_type = "unknown")
    ∧ ((scan_cluster_certificates p).cluster_type = "kubeadm"
        ↔ p.core_v1 = true ∧ ∃ d, p.podDiscovery = Except.ok d ∧ d ≠ []) := by
  unfold scan_cluster_certificates
  cases hc : p.core_v1 with
  | false =>
    exact ⟨Or.inr rfl, by simp⟩
  | true =>
    rcases hpd : p.podDiscovery with e | d
    · exact ⟨Or.inr rfl, by simp⟩
    · by_cases hde : d.isEmpty = true
      · have hdnil : d = [] := List.isEmpty_iff.mp hde
        subst hdnil
        exact ⟨Or.inr (by simp), by simp⟩
      · simp only [Bool.not_eq_true] at hde
        have hdne : d ≠ [] := by
          intro h
          subst h
          simp at hde
        exact ⟨Or.inl (by simp [hde]), by simp [hde, hdne]⟩

/-- C1: in a scan, the merge of the pod-discovered and the
filesystem-discovered name-path mappings resolves every name to the
pod-discovered path when present and the filesystem path otherwise,
contains exactly the names of the two mappings, and when the merge is
empty the scan iterates over the static path table restricted to entries
whose file exists. -/
theorem C1_merge_precedence_and_fallback (p : ScanParams)
    (pod : List (String × String)) (k : String)
    (hcore : p.core_v1 = true) (hpod : p.podDiscovery = Except.ok pod)
    (hnp : (pod.map Prod.fst).Nodup)
    (hnf : (p.filesystem_certs.map Prod.fst).Nodup) :
    ((pymerge p.filesystem_certs pod).lookup k
        = (pod.lookup k).orElse (fun _ => p.filesystem_certs.lookup k))
    ∧ (((pymerge p.filesystem_certs pod).lookup k).isSome
        ↔ ((pod.lookup k).isSome ∨ ((p.filesystem_certs).lookup k).isSome))
    ∧ scan_entries p
        = (if pymerge p.filesystem_certs pod = []
           then standard_paths.filter (fun e => p.fileExists e.2)
           else pymerge p.filesystem_certs pod) := by
  refine ⟨lookup_pymerge _ _ _ hnp hnf, ?_, ?_⟩
  · rw [lookup_pymerge _ _ _ hnp hnf]
    cases pod.lookup k <;> cases p.filesystem_certs.lookup k <;>
      simp [Option.orElse]
  · unfold scan_entries
    rw [hcore, hpod]
    simp only [if_true]
    by_cases hm : pymerge p.filesystem_certs pod = []
    · simp [hm, fallback_eq_filter]
    · simp [hm, List.isEmpty_iff]

/-- Witness for C1 on the mappings of the specification example: the
pod-discovered path wins for the shared name ca and the
filesystem-only name extra survives. -/
theorem C1_merge_precedence_and_fallback_witness :
    (ScanParams.mk true (Except.ok [("ca", "/path/A")])
        [("ca", "/path/B"), ("extra", "/path/C")]
        (fun _ => false) (fun _ => Except.error "") (fun _ => none) 0).core_v1 = true
    ∧ ((([("ca", "/path/A")] : List (String × String)).map Prod.fst).Nodup)
    ∧ ((([("ca", "/path/B"), ("extra", "/path/C")] :
          List (String × String)).map Prod.fst).Nodup)
    ∧ ((pymerge [("ca", "/path/B"), ("extra", "/path/C")] [("ca", "/path/A")]).lookup "ca"
        = (([("ca", "/path/A")] : List (String × String)).lookup "ca").orElse
            (fun _ => ([("ca", "/path/B"), ("extra", "/path/C")] :
              List (String × String)).lookup "ca")) :=
  ⟨rfl, by decide, by decide,
    (C1_merge_precedence_and_fallback
      (ScanParams.mk true (Except.ok [("ca", "/path/A")])
        [("ca", "/path/B"), ("extra", "/path/C")]
        (fun _ => false) (fun _ => Except.error "") (fun _ => none) 0)
      [("ca", "/path/A")] "ca" rfl rfl (by decide) (by decide)).1⟩

lemma bumpSummary_fields (s : ScanSummary) (st : String) :
    (bumpSummary s st).total_certificates = s.total_certificates + 1
    ∧ (bumpSummary s st).expired
        = s.expired + (if st == "expired" then 1 else 0)
    ∧ (bumpSummary s st).expiring_soon
        = s.expiring_soon + (if st == "expiring_soon" then 1 else 0)
    ∧ (bumpSummary s st).valid
        = s.valid + (if st == "valid" then 1 else 0)
    ∧ (bumpSummary s st).missing = s.missing := by
  unfold bumpSummary
  by_cases h1 : st == "expired"
  · have := eq_of_beq h1
    subst this
    simp
  · by_cases h2 : st == "expiring_soon"
    · have := eq_of_beq h2
      subst this
      simp
    · by_cases h3 : st == "valid"
      · have := eq_of_beq h3
        subst this
        simp
      · simp only [Bool.not_eq_true] at h1 h2 h3
        simp [h1, h2, h3]

lemma scanFold_invariant (p : ScanParams) (l : List (String × String))
    (acc : List CertInfo × ScanSummary) :
    (l.foldl (scanStep p) acc).1 = acc.1 ++ l.filterMap (scanCertOf p)
    ∧ (l.foldl (scanStep p) acc).2.total_certificates
        = acc.2.total_certificates + (l.filterMap (scanCertOf p)).length
    ∧ (l.foldl (scanStep p) acc).2.expired
        = acc.2.expired
          + (l.filterMap (scanCertOf p)).countP (fun c => c.status == "expired")
    ∧ (l.foldl (scanStep p) acc).2.expiring_soon
        = acc.2.expiring_soon
          + (l.filterMap (scanCertOf p)).countP (fun c => c.status == "expiring_soon")
    ∧ (l.foldl (scanStep p) acc).2.valid
        = acc.2.valid
          + (l.filterMap (scanCertOf p)).countP (fun c => c.status == "valid")
    ∧ (l.foldl (scanStep p) acc).2.missing
        = acc.2.missing + l.countP (fun e => (scanCertOf p e).isNone) := by
  induction l generalizing acc with
  | nil => simp
  | cons e es ih =>
    simp only [List.foldl_cons, List.filterMap_cons, List.countP_cons]
    cases hfe : scanCertOf p e with
    | none =>
      have hstep : scanStep p acc e = (acc.1, { acc.2 with missing := acc.2.missing + 1 }) := by
        unfold scanStep
        rw [hfe]
      rw [hstep]
      obtain ⟨i1, i2, i3, i4, i5, i6⟩ := ih (acc.1, { acc.2 with missing := acc.2.missing + 1 })
      refine ⟨i1, i2, i3, i4, i5, ?_⟩
      rw [i6]
      simp [hfe]
      omega
    | some ci =>
      have hstep : scanStep p acc e = (acc.1 ++ [ci], bumpSummary acc.2 ci.status) := by
        unfold scanStep
        rw [hfe]
      rw [hstep]
      obtain ⟨i1, i2, i3, i4, i5, i6⟩ := ih (acc.1 ++ [ci], bumpSummary acc.2 ci.status)
      obtain ⟨b1, b2, b3, b4, b5⟩ := bumpSummary_fields acc.2 ci.status
      refine ⟨?_, ?_, ?_, ?_, ?_, ?_⟩
      · rw [i1]
        simp
      · rw [i2, b1]
        simp
        omega
      · rw [i3, b2]
        simp only [List.countP_cons]
        omega
      · rw [i4, b3]
        simp only [List.countP_cons]
        omega
      · rw [i5, b4]
        simp only [List.countP_cons]
        omega
      · rw [i6, b5]
        simp [hfe]

/-- C3: for every scan, the summary total equals the number of produced
certificate records, the expired, expiringSoon and valid counters each
count exactly the records bearing that status (so a record with one of
the three statuses is counted in exactly one bucket and an unknown
record in none), and missing counts exactly the discovered name-path
entries that produced no record. -/
theorem C3_summary_invariants (p : ScanParams) :
    (scan_cluster_certificates p).summary.total_certificates
        = (scan_cluster_certificates p).certificates.length
    ∧ (scan_cluster_certificates p).summary.expired
        = (scan_cluster_certificates p).certificates.countP
            (fun c => c.status == "expired")
    ∧ (scan_cluster_certificates p).summary.expiring_soon
        = (scan_cluster_certificates p).certificates.countP
            (fun c => c.status == "expiring_soon")
    ∧ (scan_cluster_certificates p).summary.valid
        = (scan_cluster_certificates p).certificates.countP
            (fun c => c.status == "valid")
    ∧ (scan_cluster_certificates p).summary.missing
        = (scan_entries p).countP (fun e => (scanCertOf p e).isNone) := by
  obtain ⟨i1, i2, i3, i4, i5, i6⟩ :=
    scanFold_invariant p (scan_entries p) ([], ⟨0, 0, 0, 0, 0⟩)
  unfold scan_cluster_certificates
  simp only []
  rw [i1, i2, i3, i4, i5, i6]
  simp

/-- C9: a discovered certificate whose file does not exist or whose
decode step fails produces no record (the per-certificate scan returns
none rather than raising), and the scan still returns a structured
result in which the certificates list consists of exactly the
successfully scanned entries and missing counts exactly the failed
ones. -/
theorem C9_failure_counts_missing_only (p : ScanParams) (n path : String)
    (h : p.fileExists path = false ∨ ∃ e, p.decode path = Except.error e) :
    _scan_certificate p.fileExists p.decode p.parseDate p.now n path = none
    ∧ (scan_cluster_certificates p).certificates
        = (scan_entries p).filterMap (scanCertOf p)
    ∧ (scan_cluster_certificates p).summary.missing
        = (scan_entries p).countP (fun e => (scanCertOf p e).isNone) := by
  obtain ⟨i1, -, -, -, -, i6⟩ :=
    scanFold_invariant p (scan_entries p) ([], ⟨0, 0, 0, 0, 0⟩)
  refine ⟨?_, ?_, ?_⟩
  · unfold _scan_certificate
    rcases h with hex | ⟨e, hdec⟩
    · simp [hex]
    · by_cases hex : p.fileExists path = true
      · simp [hex, hdec]
      · simp only [Bool.not_eq_true] at hex
        simp [hex]
  · unfold scan_cluster_certificates
    simp only []
    rw [i1]
    simp
  · unfold scan_cluster_certificates
    simp only []
    rw [i6]
    simp

/-- Witness for C9: a one-entry scan whose decode step fails yields no
records and one missing certificate. -/
theorem C9_failure_counts_missing_only_witness :
    ((ScanParams.mk false (Except.error "no api") [("ca", "/x/pki/ca.crt")]
        (fun _ => true) (fun _ => Except.error "openssl failed")
        (fun _ => none) 0).fileExists "/x/pki/ca.crt" = false
      ∨ ∃ e, (ScanParams.mk false (Except.error "no api") [("ca", "/x/pki/ca.crt")]
          (fun _ => true) (fun _ => Except.error "openssl failed")
          (fun _ => none) 0).decode "/x/pki/ca.crt" = Except.error e)
    ∧ _scan_certificate
        (ScanParams.mk false (Except.error "no api") [("ca", "/x/pki/ca.crt")]
          (fun _ => true) (fun _ => Except.error "openssl failed")
          (fun _ => none) 0).fileExists
        (ScanParams.mk false (Except.error "no api") [("ca", "/x/pki/ca.crt")]
          (fun _ => true) (fun _ => Except.error "openssl failed")
          (fun _ => none) 0).decode
        (fun _ => none) 0 "ca" "/x/pki/ca.crt" = none :=
  ⟨Or.inr ⟨"openssl failed", rfl⟩,
    (C9_failure_counts_missing_only
      (ScanParams.mk false (Except.error "no api") [("ca", "/x/pki/ca.crt")]
        (fun _ => true) (fun _ => Except.error "openssl failed")
        (fun _ => none) 0)
      "ca" "/x/pki/ca.crt" (Or.inr ⟨"openssl failed", rfl⟩)).1⟩

lemma head_of_append (s t : String) (c : Char) (h : s.data.head? = some c) :
    (s ++ t).data.head? = some c := by
  rw [String.data_append]
  cases hs : s.data with
  | nil => rw [hs] at h; simp at h
  | cons a as =>
    rw [hs] at h
    simp only [List.head?_cons, Option.some.injEq] at h
    simp [h]

lemma ne_of_head (s t : String) (h : s.data.head? ≠ t.data.head?) : s ≠ t :=
  fun he => h (by rw [he])

lemma pyStartswith_false_of_head (s pat : String) (c c' : Char)
    (hp : pat.data.head? = some c) (hs : s.data.head? = some c')
    (hne : c ≠ c') : pyStartswith s pat = false := by
  unfold pyStartswith
  cases hpd : pat.data with
  | nil => rw [hpd] at hp; simp at hp
  | cons a as =>
    rw [hpd] at hp
    simp only [List.head?_cons, Option.some.injEq] at hp
    cases hsd : s.data with
    | nil => rw [hsd] at hs; simp at hs
    | cons b bs =>
      rw [hsd] at hs
      simp only [List.head?_cons, Option.some.injEq] at hs
      have : (a == b) = false := by
        rw [hp, hs]
        exact beq_eq_false_iff_ne.mpr hne
      simp [List.isPrefixOf, this]

lemma sanMissingMsg_head (r : String) :
    (sanMissingMsg r).data.head? = some 'M' :=
  head_of_append _ _ _ (by decide)

lemma keySizeMsg_head (n : Int) :
    (keySizeMsg n).data.head? = some 'K' := by
  unfold keySizeMsg
  exact head_of_append _ _ _ (head_of_append _ _ _ (by decide))

lemma issuerMsg_head (cn : String) :
    (issuerMsg cn).data.head? = some 'U' := by
  unfold issuerMsg
  exact head_of_append _ _ _ (head_of_append _ _ _ (by decide))

lemma expiresMsg_head (d : Int) :
    (expiresMsg d).data.head? = some 'C' := by
  unfold expiresMsg
  exact head_of_append _ _ _ (head_of_append _ _ _ (by decide))

lemma mem_san_issues (c : CertInfo) (s : String) (h : s ∈ san_issues c) :
    ∃ r ∈ required_dns, s = sanMissingMsg r := by
  unfold san_issues at h
  split at h
  · obtain ⟨r, hr, hrs⟩ := List.mem_map.mp h
    exact ⟨r, List.mem_of_mem_filter hr, hrs.symm⟩
  · simp at h

lemma mem_key_size_issues (c : CertInfo) (s : String)
    (h : s ∈ key_size_issues c) : ∃ n, s = keySizeMsg n := by
  unfold key_size_issues at h
  simp only [] at h
  split at h
  · split at h
    · split at h
      · exact ⟨_, (List.mem_singleton.mp h)⟩
      · simp at h
    · simp at h
  · simp at h

lemma mem_issuer_issues (c : CertInfo) (s : String)
    (h : s ∈ issuer_issues c) : ∃ cn, s = issuerMsg cn := by
  unfold issuer_issues at h
  simp only [] at h
  split at h
  · exact ⟨_, List.mem_singleton.mp h⟩
  · simp at h

lemma isExpiryIssue_false_of_head (a : String) (c : Char)
    (ha : a.data.head? = some c) (hc : c ≠ 'C') : isExpiryIssue a = false := by
  unfold isExpiryIssue
  have h1 : (a == "Certificate has expired") = false := by
    refine beq_eq_false_iff_ne.mpr (ne_of_head _ _ ?_)
    rw [ha]
    have : ("Certificate has expired" : String).data.head? = some 'C' := by decide
    rw [this]
    simp [hc]
  have h2 : pyStartswith a "Certificate expires in " = false :=
    pyStartswith_false_of_head a _ 'C' c (by decide) ha (fun he => hc he.symm)
  simp [h1, h2]

lemma isKeySizeIssue_false_of_head (a : String) (c : Char)
    (ha : a.data.head? = some c) (hc : c ≠ 'K') : isKeySizeIssue a = false := by
  unfold isKeySizeIssue
  exact pyStartswith_false_of_head a _ 'K' c (by decide) ha (fun he => hc he.symm)

lemma validate_filter_expiry (c : CertInfo) :
    (_validate_certificate c).filter isExpiryIssue = [] := by
  rw [List.filter_eq_nil_iff]
  intro a ha
  unfold _validate_certificate at ha
  simp only [List.mem_append] at ha
  have : isExpiryIssue a = false := by
    rcases ha with (h | h) | h
    · obtain ⟨r, -, hrfl⟩ := mem_san_issues c a h
      exact isExpiryIssue_false_of_head a 'M' (hrfl ▸ sanMissingMsg_head r) (by decide)
    · obtain ⟨n, hrfl⟩ := mem_key_size_issues c a h
      exact isExpiryIssue_false_of_head a 'K' (hrfl ▸ keySizeMsg_head n) (by decide)
    · obtain ⟨cn, hrfl⟩ := mem_issuer_issues c a h
      exact isExpiryIssue_false_of_head a 'U' (hrfl ▸ issuerMsg_head cn) (by decide)
  simp [this]

lemma isPrefixOf_self_append (l t : List Char) : l.isPrefixOf (l ++ t) = true := by
  induction l with
  | nil => simp [List.isPrefixOf]
  | cons c cs ih => simp [List.isPrefixOf, ih]

lemma isExpiryIssue_expired : isExpiryIssue "Certificate has expired" = true := by
  decide

lemma isExpiryIssue_expiresMsg (d : Int) : isExpiryIssue (expiresMsg d) = true := by
  unfold isExpiryIssue expiresMsg pyStartswith
  have : ("Certificate expires in ").data.isPrefixOf
      (("Certificate expires in " ++ toString d ++ " days").data) = true := by
    rw [String.data_append, String.data_append, List.append_assoc]
    exact isPrefixOf_self_append _ _
  simp [this]

lemma sanMissingMsg_injective : Function.Injective sanMissingMsg := by
  intro a b h
  unfold sanMissingMsg at h
  have hd : ("Missing required DNS name in SAN: " ++ a).data
      = ("Missing required DNS name in SAN: " ++ b).data := by rw [h]
  rw [String.data_append, String.data_append] at hd
  exact String.ext (List.append_cancel_left hd)

/-- C2: for every record the parser produces, daysUntilExpiry is exactly
the floor of (notAfter - now) in days when notAfter parsed and absent
otherwise, status is the pure threshold function of daysUntilExpiry
(absent to unknown, negative to expired, below thirty to expiring_soon,
else valid), and the expiry-related issues are exactly the single
message the threshold dictates. -/
theorem C2_status_pure_function_of_days (pd : String → Option Int) (now : Int)
    (n path text : String) :
    ((_parse_openssl_output pd now n path text).days_until_expiry
        = (_parse_openssl_output pd now n path text).not_after.map
            (fun na => Int.fdiv (na - now) usecPerDay))
    ∧ ((_parse_openssl_output pd now n path text).status
        = (match (_parse_openssl_output pd now n path text).days_until_expiry with
           | none => "unknown"
           | some dd => if dd < 0 then "expired"
                        else if dd < 30 then "expiring_soon" else "valid"))
    ∧ ((_parse_openssl_output pd now n path text).issues.filter isExpiryIssue
        = (match (_parse_openssl_output pd now n path text).days_until_expiry with
           | none => []
           | some dd => if dd < 0 then ["Certificate has expired"]
                        else if dd < 30 then [expiresMsg dd] else [])) := by
  unfold _parse_openssl_output
  simp only []
  cases hna : ((pySplit text '\n').foldl (parseLine pd) initParseState).not_after with
  | none =>
    simp [validate_filter_expiry]
  | some na =>
    by_cases h0 : Int.fdiv (na - now) usecPerDay < 0
    · simp [h0, List.filter_append, validate_filter_expiry, isExpiryIssue_expired]
    · by_cases h30 : Int.fdiv (na - now) usecPerDay < 30
      · simp [h0, h30, List.filter_append, validate_filter_expiry,
          isExpiryIssue_expiresMsg]
      · simp [h0, h30, List.filter_append, validate_filter_expiry]

/-- C7: for a certificate whose name contains apiserver but neither
kubelet-client nor etcd-client, validation emits the missing-SAN issue
for a required DNS name exactly once when that name is absent from the
record's SAN DNS list and not at all when it is present. -/
theorem C7_apiserver_required_san (c : CertInfo) (r : String)
    (h1 : pyIn "apiserver" c.name = true)
    (h2 : pyIn "kubelet-client" c.name = false)
    (h3 : pyIn "etcd-client" c.name = false)
    (hr : r ∈ required_dns) :
    (_validate_certificate c).count (sanMissingMsg r)
      = if c.dns_names.contains r then 0 else 1 := by
  unfold _validate_certificate
  rw [List.count_append, List.count_append]
  have hkey : (key_size_issues c).count (sanMissingMsg r) = 0 := by
    rw [List.count_eq_zero]
    intro hmem
    obtain ⟨nn, hnn⟩ := mem_key_size_issues c _ hmem
    have hM := sanMissingMsg_head r
    rw [hnn, keySizeMsg_head nn] at hM
    simp at hM
  have hiss : (issuer_issues c).count (sanMissingMsg r) = 0 := by
    rw [List.count_eq_zero]
    intro hmem
    obtain ⟨cn, hcn⟩ := mem_issuer_issues c _ hmem
    have hM := sanMissingMsg_head r
    rw [hcn, issuerMsg_head cn] at hM
    simp at hM
  have hsan : (san_issues c).count (sanMissingMsg r)
      = if c.dns_names.contains r then 0 else 1 := by
    unfold san_issues
    simp only [h1, h2, h3, Bool.not_false, Bool.and_self, if_true]
    rw [List.count_map_of_injective _ _ sanMissingMsg_injective]
    by_cases hcont : c.dns_names.contains r
    · rw [if_pos hcont, List.count_eq_zero]
      intro hmem
      have hq := List.of_mem_filter hmem
      rw [hcont] at hq
      simp at hq
    · rw [if_neg hcont]
      apply List.count_eq_one_of_mem
      · exact List.Nodup.filter _ (by decide)
      · refine List.mem_filter.mpr ⟨hr, ?_⟩
        simp only [Bool.not_eq_true] at hcont
        rw [hcont]
        rfl
  rw [hsan, hkey, hiss]
  omega

/-- Witness for C7: an apiserver record whose SAN list holds only
kubernetes gets exactly one issue for the absent name
kubernetes.default. -/
theorem C7_apiserver_required_san_witness :
    pyIn "apiserver" (CertInfo.mk "apiserver" "/etc/kubernetes/pki/apiserver.crt"
        [] [("CN", "kubernetes")] none none ["kubernetes"] [] none none
        "unknown" none []).name = true
    ∧ pyIn "kubelet-client" "apiserver" = false
    ∧ pyIn "etcd-client" "apiserver" = false
    ∧ "kubernetes.default" ∈ required_dns
    ∧ (_validate_certificate (CertInfo.mk "apiserver"
          "/etc/kubernetes/pki/apiserver.crt" [] [("CN", "kubernetes")] none none
          ["kubernetes"] [] none none "unknown" none [])).count
        (sanMissingMsg "kubernetes.default")
      = if (CertInfo.mk "apiserver" "/etc/kubernetes/pki/apiserver.crt"
            [] [("CN", "kubernetes")] none none ["kubernetes"] [] none none
            "unknown" none []).dns_names.contains "kubernetes.default"
        then 0 else 1 :=
  ⟨by decide, by decide, by decide, by decide,
    C7_apiserver_required_san
      (CertInfo.mk "apiserver" "/etc/kubernetes/pki/apiserver.crt"
        [] [("CN", "kubernetes")] none none ["kubernetes"] [] none none
        "unknown" none [])
      "kubernetes.default" (by decide) (by decide) (by decide) (by decide)⟩

/-- C8 counterexample record: a certificate record whose key-size string
is the plural form 1024 bits, as a decode tool may print. -/
def weakKeyCert : CertInfo :=
  { name := "ca", path := "/etc/kubernetes/pki/ca.crt", subject := [],
    issuer := [], not_before := none, not_after := none, dns_names := [],
    ip_addresses := [], key_algorithm := some "rsaEncryption",
    key_size := some "1024 bits", status := "unknown",
    days_until_expiry := none, issues := [] }

/-- C8 counterexample: the claim reads the key size as a leading integer
and predicts a weak-key issue whenever that integer is below 2048.  On
the key-size string 1024 bits the leading integer is 1024, below 2048,
yet validation appends no issue at all: the code removes the substring
bit (leaving 1024 s), strips whitespace, and int() fails on the
remainder, so the bare except swallows the check. -/
theorem C8_counterexample_leading_integer :
    spec_leading_int "1024 bits" = some 1024
    ∧ (1024 : Nat) < 2048
    ∧ weakKeyCert.key_size = some "1024 bits"
    ∧ _validate_certificate weakKeyCert = [] := by
  refine ⟨by decide, by decide, rfl, ?_⟩
  decide

/-- C8 as amended: validation reads the key-size string, deletes every
occurrence of the substring bit, strips whitespace, and parses the
entire remainder with int(); exactly when that full parse succeeds with
a value below 2048 does it append the weak-key issue, and a parse
failure or a value of at least 2048 appends none. -/
theorem C8_key_size_issue_from_full_int_parse (c : CertInfo) :
    (_validate_certificate c).filter isKeySizeIssue
      = (match pyInt (pyStrip (pyReplace (c.key_size.getD "") "bit" "")) with
         | some nn => if nn < 2048 then [keySizeMsg nn] else []
         | none => []) := by
  unfold _validate_certificate
  rw [List.filter_append, List.filter_append]
  have hsan : (san_issues c).filter isKeySizeIssue = [] := by
    rw [List.filter_eq_nil_iff]
    intro a ha
    obtain ⟨r, -, hrfl⟩ := mem_san_issues c a ha
    simp [isKeySizeIssue_false_of_head a 'M' (hrfl ▸ sanMissingMsg_head r)
      (by decide)]
  have hiss : (issuer_issues c).filter isKeySizeIssue = [] := by
    rw [List.filter_eq_nil_iff]
    intro a ha
    obtain ⟨cn, hrfl⟩ := mem_issuer_issues c a ha
    simp [isKeySizeIssue_false_of_head a 'U' (hrfl ▸ issuerMsg_head cn)
      (by decide)]
  have hkey : (key_size_issues c).filter isKeySizeIssue = key_size_issues c := by
    rw [List.filter_eq_self]
    intro a ha
    obtain ⟨nn, hrfl⟩ := mem_key_size_issues c a ha
    subst hrfl
    unfold isKeySizeIssue keySizeMsg pyStartswith
    rw [String.data_append, String.data_append, List.append_assoc]
    exact isPrefixOf_self_append _ _
  rw [hsan, hkey, hiss, List.nil_append, List.append_nil]
  unfold key_size_issues
  simp only []
  by_cases hks : c.key_size.getD "" = ""
  · rw [hks]
    have hnone : pyInt (pyStrip (pyReplace "" "bit" "")) = none := by decide
    rw [hnone]
    simp
  · simp [hks]

/-- C6 failing input: a SAN block whose names continue over two value
lines after the header. -/
def multilineSanText : String :=
  "        X509v3 Subject Alternative Name:\n"
    ++ "            DNS:kubernetes, DNS:kubernetes.default\n"
    ++ "            DNS:kubernetes.default.svc\n"

/-- C6: the claim (and the evident intent of the section-reset check)
says every line after the SAN header is treated as SAN continuation
until a non-indented section header appears, so names spread over
several lines all accumulate.  Because the loop strips each line before
the reset check, the check fires on the first value line itself (it
contains a colon and no X509v3), so the second value line is dropped:
parsing the three-line block yields only the first line's two names,
and kubernetes.default.svc is lost. -/
theorem C6_second_san_line_dropped :
    (_parse_openssl_output (fun _ => none) 0 "apiserver"
        "/etc/kubernetes/pki/apiserver.crt" multilineSanText).dns_names
      = ["kubernetes", "kubernetes.default"] := by
  decide

end CertsManager
